import Mathlib

/-!
Verification of the Flamenco Worker core against its specification.

The definitions below are a shallow embedding of the Python sources
(`flamenco_worker/worker.py`, `runner.py`, `may_i_run.py`, `timing.py`,
`documents.py`).  Pure control flow is translated into Lean functions;
stateful methods become explicit state-passing functions that also return
the list of externally visible effects (HTTP posts, scheduled timers,
aborts) they would perform.  Durations are modelled as rationals; Python
dictionaries (`collections.OrderedDict`) are modelled as association
lists with the insertion-order update discipline of `OrderedDict`.
-/

namespace Flamenco

/-! ## Ordered-dictionary model

`getD l k` is Python `l.get(k, 0.0)`; `setKey l k v` is `l[k] = v` on an
`OrderedDict`: an existing key keeps its position and gets the new value,
a new key is appended at the end. -/

/-- Lookup with default 0, mirroring `self._aggr_timing_info.get(timing_key, 0.0)`
in `runner.py`. -/
def getD : List (String × ℚ) → String → ℚ
  | [], _ => 0
  | (k', v) :: rest, k => if k' = k then v else getD rest k

/-- Ordered-dict assignment, mirroring `self._aggr_timing_info[timing_key] = ...`
in `runner.py`: replace in place if the key exists, append otherwise. -/
def setKey : List (String × ℚ) → String → ℚ → List (String × ℚ)
  | [], k, v => [(k, v)]
  | (k', v') :: rest, k, v =>
    if k' = k then (k, v) :: rest else (k', v') :: setKey rest k v

/-- Total duration recorded under key `k` in a timing mapping
(0 when the key is absent). -/
def sumAt : List (String × ℚ) → String → ℚ
  | [], _ => 0
  | (k', v) :: rest, k => (if k' = k then v else 0) + sumAt rest k

theorem getD_setKey_same (l : List (String × ℚ)) (k : String) (v : ℚ) :
    getD (setKey l k v) k = v := by
  induction l with
  | nil => simp [setKey, getD]
  | cons p rest ih =>
    obtain ⟨k', v'⟩ := p
    by_cases h : k' = k
    · simp [setKey, getD, h]
    · simp [setKey, getD, h, ih]

theorem getD_setKey_other (l : List (String × ℚ)) (k k' : String) (v : ℚ)
    (hne : k' ≠ k) : getD (setKey l k v) k' = getD l k' := by
  have hkk' : k ≠ k' := Ne.symm hne
  induction l with
  | nil => simp [setKey, getD, hkk']
  | cons p rest ih =>
    obtain ⟨k₀, v₀⟩ := p
    by_cases h : k₀ = k
    · subst h
      simp [setKey, getD, hkk']
    · simp [setKey, getD, h, ih]

/-! ## Task Runner (`runner.py`)

`TaskRunner._execute` iterates over the task's commands in listed order,
runs each command, folds the command's finalized timing into the
aggregate (`for timing_key, timing_value in cmd.timing.items(): ...`),
and returns `False` right after the first unsuccessful command.
`TaskRunner.execute` resets the aggregate, runs `_execute`, and in a
`finally` block calls `log_recorded_timings`, which emits one task-log
entry with the aggregate timing unless the aggregate is empty. -/

/-- The outcome of one command, as the Task Runner observes it: the boolean
result of `cmd.run(settings)` and the command's finalized timing mapping
(`cmd.timing`, an ordered dict from interval name to seconds). -/
structure CmdResult where
  success : Bool
  timing : List (String × ℚ)
  deriving Repr, DecidableEq

/-- Lines 72-75 of `runner.py`: add one command's timing into the aggregate,
key-wise, using `get(key, 0.0)` and ordered-dict assignment. -/
def iaddTiming (aggr : List (String × ℚ)) (cmdTiming : List (String × ℚ)) :
    List (String × ℚ) :=
  cmdTiming.foldl (fun acc kv => setKey acc kv.1 (getD acc kv.1 + kv.2)) aggr

/-- Result of the command loop of `TaskRunner._execute`: the boolean returned,
the aggregate timing accumulated so far, and the commands that were executed,
in execution order. -/
structure ExecOutcome where
  ok : Bool
  aggr : List (String × ℚ)
  executed : List CmdResult
  deriving Repr, DecidableEq

/-- The command loop of `TaskRunner._execute` (`runner.py` lines 43-85):
run commands in listed order; after each command fold its timing into the
aggregate; if the command was not successful, return `False` at once,
executing no later command.  An empty command list yields `True`. -/
def runCommands : List CmdResult → List (String × ℚ) → ExecOutcome
  | [], aggr => ⟨true, aggr, []⟩
  | c :: rest, aggr =>
    let aggr' := iaddTiming aggr c.timing
    if c.success then
      let o := runCommands rest aggr'
      ⟨o.ok, o.aggr, c :: o.executed⟩
    else
      ⟨false, aggr', [c]⟩

/-- A task-log entry emitted by the Task Runner.  `timingEntry` carries the
aggregate timing that `log_recorded_timings` renders into the single
`register_log` call it makes. -/
inductive RunnerLogEntry
  | timingEntry (aggr : List (String × ℚ))
  deriving Repr, DecidableEq

/-- `TaskRunner.log_recorded_timings` (`runner.py` lines 100-114): when the
aggregate timing is empty, return without logging anything; otherwise emit
exactly one `register_log` entry carrying the aggregate timing. -/
def logRecordedTimings (aggr : List (String × ℚ)) : List RunnerLogEntry :=
  if aggr = [] then [] else [.timingEntry aggr]

/-- `TaskRunner.execute` (`runner.py` lines 29-36): reset the aggregate to an
empty ordered dict, run the command loop, and always (success, failure or
exception, via `finally`) run `log_recorded_timings`. -/
def executeTask (cmds : List CmdResult) : ExecOutcome × List RunnerLogEntry :=
  let o := runCommands cmds []
  (o, logRecordedTimings o.aggr)

theorem getD_iaddTiming (t : List (String × ℚ)) (a : List (String × ℚ))
    (k : String) : getD (iaddTiming a t) k = getD a k + sumAt t k := by
  induction t generalizing a with
  | nil => simp [iaddTiming, sumAt]
  | cons kv rest ih =>
    obtain ⟨k', v⟩ := kv
    show getD (iaddTiming (setKey a k' (getD a k' + v)) rest) k = _
    rw [ih]
    by_cases h : k' = k
    · subst h
      rw [getD_setKey_same]
      simp [sumAt]
      ring
    · rw [getD_setKey_other _ _ _ _ (fun h' => h h'.symm)]
      simp [sumAt, h]

theorem getD_runCommands (cmds : List CmdResult) (a : List (String × ℚ))
    (k : String) :
    getD (runCommands cmds a).aggr k =
      getD a k + ((runCommands cmds a).executed.map
        (fun c => sumAt c.timing k)).sum := by
  induction cmds generalizing a with
  | nil => simp [runCommands]
  | cons c rest ih =>
    cases hc : c.success with
    | true =>
      simp only [runCommands, hc, if_true]
      rw [ih, getD_iaddTiming]
      simp [add_assoc]
    | false =>
      simp only [runCommands, hc, Bool.false_eq_true, if_false]
      simp [getD_iaddTiming]

/-- Claim C2: after a task executes, the aggregate timing recorded by the
Task Runner maps each interval name to the sum of that interval's durations
over all executed commands; commands that did not record the interval
contribute 0. -/
theorem aggr_timing_is_keywise_sum (cmds : List CmdResult) (k : String) :
    getD (executeTask cmds).1.aggr k =
      ((executeTask cmds).1.executed.map (fun c => sumAt c.timing k)).sum := by
  have h := getD_runCommands cmds [] k
  simpa [executeTask, getD] using h

/-- Claim C3: the Task Runner runs the commands strictly in listed order
(the executed commands are a prefix of the command list), returns `true`
iff every command's run returned `true`, and stops right after the first
failing command, executing no later command. -/
theorem execute_stops_at_first_failure (cmds : List CmdResult) :
    (executeTask cmds).1.ok = cmds.all (fun c => c.success) ∧
    (executeTask cmds).1.executed =
      cmds.take ((cmds.takeWhile (fun c => c.success)).length + 1) := by
  suffices h : ∀ a, (runCommands cmds a).ok = cmds.all (fun c => c.success) ∧
      (runCommands cmds a).executed =
        cmds.take ((cmds.takeWhile (fun c => c.success)).length + 1) by
    exact ⟨(h []).1, (h []).2⟩
  induction cmds with
  | nil => intro a; simp [runCommands]
  | cons c rest ih =>
    intro a
    cases hc : c.success with
    | true =>
      refine ⟨?_, ?_⟩
      · simp [runCommands, hc, (ih (iaddTiming a c.timing)).1]
      · simp [runCommands, hc, List.takeWhile, (ih (iaddTiming a c.timing)).2]
    | false =>
      refine ⟨?_, ?_⟩
      · simp [runCommands, hc]
      · simp [runCommands, hc, List.takeWhile]

/-- Claim C8, counterexample: a task with no commands finishes with an empty
aggregate timing, and the Task Runner then emits no timing log line at all
(`log_recorded_timings` returns early), contradicting the claim that exactly
one timing log line is emitted on every task completion. -/
theorem no_timing_log_for_empty_timing :
    (executeTask []).2 = [] ∧ (executeTask []).2.length ≠ 1 := by
  constructor
  · rfl
  · decide

/-- Claim C8, amended: on completion of a task (successful or not), if the
aggregate timing is non-empty, the Task Runner emits exactly one log entry
to the task log, carrying the aggregate timing; if no timing was recorded,
it emits nothing. -/
theorem one_timing_log_when_nonempty (cmds : List CmdResult)
    (h : (executeTask cmds).1.aggr ≠ []) :
    (executeTask cmds).2 = [.timingEntry (executeTask cmds).1.aggr] := by
  simp only [executeTask, logRecordedTimings] at *
  simp [h]

/-- Witness for the amended C8 at a concrete input: one command recording
two seconds of io time yields exactly one timing log entry. -/
theorem one_timing_log_when_nonempty_witness :
    (executeTask [⟨true, [("io", 2)]⟩]).2 =
      [.timingEntry (executeTask [⟨true, [("io", 2)]⟩]).1.aggr] :=
  one_timing_log_when_nonempty [⟨true, [("io", 2)]⟩] (by decide)

/-! ## Worker Core (`worker.py`)

The `FlamencoWorker` state that the verified claims touch, together with
the externally visible effects its methods issue.  Delay constants are the
module-level constants of `worker.py`. -/

/-- `WorkerState` enum of `worker.py`. -/
inductive WState
  | starting
  | awake
  | asleep
  | error
  | shuttingDown
  deriving Repr, DecidableEq

/-- The fields of `documents.Activity` other than `metrics` (the `metrics`
dict has reference semantics in the source and is modelled separately, see
the shared-default model at the end of this file). -/
structure ActivityCore where
  activity : String
  currentCommandIdx : ℕ
  taskProgressPercentage : ℕ
  commandProgressPercentage : ℕ
  deriving Repr, DecidableEq

/-- A fresh `documents.Activity()` as far as its scalar fields go. -/
def ActivityCore.default : ActivityCore := ⟨"", 0, 0, 0⟩

/-- The `FlamencoWorker` attributes that the verified claims are about.
`executing` stands for `asyncio_execution_fut is not None and not
asyncio_execution_fut.done()`, i.e. a task is currently executing. -/
structure Worker where
  state : WState
  taskId : Option String
  executing : Bool
  taskIsSilentlyAborting : Bool
  currentTaskStatus : Option String
  lastTaskActivity : ActivityCore
  queuedLogEntries : List String
  deriving Repr, DecidableEq

/-- Externally visible effects of the Worker Core methods. -/
inductive WEffect
  | scheduleFetch (delaySeconds : ℕ)
  | postTask
  | ackStatusChange (status : String)
  | startSleepPoll
  | startErrorSleep
  | stopFetchingTasks
  | stopSleepPoll
  | stopEventLoop
  | abortRunner
  | cancelExecution
  | pushToManager
  | flushUpdateQueue
  | postTaskReturn (taskId : String)
  | executeFetchedTask (taskId : String)
  deriving Repr, DecidableEq

/-- Delay constants of `worker.py` (seconds). -/
def FETCH_TASK_FAILED_RETRY_DELAY : ℕ := 10

def FETCH_TASK_EMPTY_RETRY_DELAY : ℕ := 5

def FETCH_TASK_DONE_SCHEDULE_NEW_DELAY : ℕ := 3

def QUEUE_SIZE_THRESHOLD : ℕ := 10

/-- `FlamencoWorker.go_to_state_asleep`: set state ASLEEP, stop fetching,
start the sleep poll, acknowledge the status. -/
def go_to_state_asleep (w : Worker) : Worker × List WEffect :=
  ({ w with state := .asleep },
   [.stopFetchingTasks, .startSleepPoll, .ackStatusChange "asleep"])

/-- `FlamencoWorker.go_to_state_awake`: set state AWAKE, stop the sleep poll,
schedule a fetch after the done-retry delay, acknowledge the status. -/
def go_to_state_awake (w : Worker) : Worker × List WEffect :=
  ({ w with state := .awake },
   [.stopSleepPoll, .scheduleFetch FETCH_TASK_DONE_SCHEDULE_NEW_DELAY,
    .ackStatusChange "awake"])

/-- `FlamencoWorker.go_to_state_shutdown`: set state SHUTTING_DOWN and stop
the event loop; the status is deliberately not acknowledged. -/
def go_to_state_shutdown (w : Worker) : Worker × List WEffect :=
  ({ w with state := .shuttingDown }, [.stopEventLoop])

/-- `FlamencoWorker.go_to_state_error`: set state ERROR, acknowledge it, and
start the one-shot error-recovery sleeper (`sleeping_for_error`). -/
def go_to_state_error (w : Worker) : Worker × List WEffect :=
  ({ w with state := .error },
   [.ackStatusChange "error", .startErrorSleep])

/-- The `status_change_handlers` dict lookup in `FlamencoWorker.change_status`:
`none` models the `KeyError` case. -/
def statusChangeHandler (newStatus : String) :
    Option (Worker → Worker × List WEffect) :=
  if newStatus = "asleep" then some go_to_state_asleep
  else if newStatus = "awake" then some go_to_state_awake
  else if newStatus = "shutdown" then some go_to_state_shutdown
  else if newStatus = "error" then some go_to_state_error
  else none

/-- `FlamencoWorker.change_status`: look the handler up by status name; on
`KeyError` fall back to `go_to_state_asleep`; then call the handler. -/
def change_status (newStatus : String) (w : Worker) : Worker × List WEffect :=
  match statusChangeHandler newStatus with
  | some handler => handler w
  | none => go_to_state_asleep w

/-- The four response shapes `FlamencoWorker.fetch_task` distinguishes on
`POST /task`: a requests-level exception, 204, 423 with a
`status_requested` body, 200 with a task document (identified here by its
id), and any other status code. -/
inductive FetchResp
  | requestError
  | noContent204
  | locked423 (statusRequested : String)
  | ok200 (taskId : String)
  | otherStatus (code : ℕ)
  deriving Repr, DecidableEq

/-- `FlamencoWorker.fetch_task` (`worker.py` lines 532-567).  Every branch
first POSTs `/task`; a transport error or a non-200/204/423 status
reschedules after the failure-retry delay; 204 reschedules after the
empty-retry delay; 423 applies the requested status change; 200 records the
task id and hands the task document back for execution. -/
def fetch_task (w : Worker) (resp : FetchResp) :
    Worker × Option String × List WEffect :=
  match resp with
  | .requestError =>
    (w, none, [.postTask, .scheduleFetch FETCH_TASK_FAILED_RETRY_DELAY])
  | .noContent204 =>
    (w, none, [.postTask, .scheduleFetch FETCH_TASK_EMPTY_RETRY_DELAY])
  | .locked423 statusRequested =>
    let (w', effs) := change_status statusRequested w
    (w', none, .postTask :: effs)
  | .otherStatus _ =>
    (w, none, [.postTask, .scheduleFetch FETCH_TASK_FAILED_RETRY_DELAY])
  | .ok200 tid =>
    ({ w with taskId := some tid }, some tid, [.postTask])

/-- `FlamencoWorker._cleanup_state_for_new_task`: fresh `Activity`, clear the
silently-aborting flag, empty current task status. -/
def cleanup_state_for_new_task (w : Worker) : Worker :=
  { w with lastTaskActivity := ActivityCore.default,
           taskIsSilentlyAborting := false,
           currentTaskStatus := some "" }

/-- The result of the pre-task sanity check
(`FlamencoWorker.pre_task_sanity_check`): either it returns normally or it
raises `PreTaskCheckFailed` with a message. -/
inductive PreCheck
  | ok
  | failed (message : String)
  deriving Repr, DecidableEq

/-- `FlamencoWorker.single_iteration` (`worker.py` lines 496-530): set state
AWAKE and clean up; if the update queue is over the threshold, reschedule
after the failure-retry delay; if the pre-task sanity check raises, go to
the error state; otherwise fetch a task and, when one arrives, execute it.
`queueSize` is `tuqueue.queue_size()` and `pre` the sanity-check outcome. -/
def single_iteration (w : Worker) (queueSize : ℕ) (pre : PreCheck)
    (resp : FetchResp) : Worker × List WEffect :=
  let w1 := cleanup_state_for_new_task { w with state := .awake }
  if queueSize > QUEUE_SIZE_THRESHOLD then
    (w1, [.scheduleFetch FETCH_TASK_FAILED_RETRY_DELAY])
  else
    match pre with
    | .failed _ => go_to_state_error w1
    | .ok =>
      let (w2, taskOpt, effs) := fetch_task w1 resp
      match taskOpt with
      | none => (w2, effs)
      | some tid => (w2, effs ++ [.executeFetchedTask tid])

/-- The log line `stop_current_task` registers before returning the task. -/
def stopTaskLogLine (taskId : String) : String :=
  "Worker stopped running task " ++ taskId ++
    ", no longer allowed to run by Manager"

/-- `FlamencoWorker.stop_current_task` (`worker.py` lines 381-412).  When no
task is executing (`asyncio_execution_fut` absent or done) or the currently
executing task id differs from the argument, only a process-log warning is
emitted: the worker record is unchanged and no effect is issued.  Otherwise
the silently-aborting flag is set, the runner is aborted, the execution
future is cancelled, a stop line is registered in the task log, and the
task is returned to the Manager (`requeue_task_on_manager`: push, flush,
POST `/tasks/{id}/return`). -/
def stop_current_task (w : Worker) (taskId : String) : Worker × List WEffect :=
  if !w.executing then
    (w, [])
  else if w.taskId ≠ some taskId then
    (w, [])
  else
    let w1 := { w with taskIsSilentlyAborting := true,
                       queuedLogEntries :=
                         w.queuedLogEntries ++ [stopTaskLogLine taskId] }
    (w1, [.abortRunner, .cancelExecution, .pushToManager, .flushUpdateQueue,
          .postTaskReturn taskId])

/-- Claim C1: `stop_current_task(T)` is a no-op — worker record (state, task
status, log buffer, flags) unchanged and no effect issued (no abort, no
`/tasks/T/return` POST) — unless a task is currently executing and its id
equals `T`. -/
theorem stop_current_task_noop (w : Worker) (t : String)
    (h : ¬(w.executing = true ∧ w.taskId = some t)) :
    stop_current_task w t = (w, []) := by
  by_cases hex : w.executing
  · have hne : w.taskId ≠ some t := fun hid => h ⟨hex, hid⟩
    simp [stop_current_task, hex, hne]
  · simp [stop_current_task, hex]

/-- Witness for C1: stopping task `T2` while `T1` is executing changes
nothing and issues no effect. -/
theorem stop_current_task_noop_witness :
    stop_current_task
      ⟨.awake, some "T1", true, false, some "active", ActivityCore.default, []⟩
      "T2" =
    (⟨.awake, some "T1", true, false, some "active", ActivityCore.default, []⟩,
     []) :=
  stop_current_task_noop _ "T2" (by decide)

/-- Claim C7: when `POST /task` answers 204, `fetch_task` returns no task,
leaves the whole worker record (task id, task status, activity, state)
unchanged, and its only effect besides the POST itself is rescheduling the
next fetch after the empty-retry delay of 5 seconds. -/
theorem fetch_task_204_no_mutation (w : Worker) :
    fetch_task w .noContent204 =
      (w, none, [.postTask, .scheduleFetch 5]) := rfl

/-- Claim C4: in a fetch-and-execute iteration where the update queue is not
over the threshold and the pre-task sanity check fails, the worker ends in
the ERROR state, the error-recovery timer is started and the error state
acknowledged, and `/task` is never POSTed (no task is consumed). -/
theorem pre_task_check_failure_goes_to_error (w : Worker) (queueSize : ℕ)
    (msg : String) (resp : FetchResp)
    (hq : queueSize ≤ QUEUE_SIZE_THRESHOLD) :
    (single_iteration w queueSize (.failed msg) resp).1.state = .error ∧
    WEffect.startErrorSleep ∈ (single_iteration w queueSize (.failed msg) resp).2 ∧
    WEffect.ackStatusChange "error" ∈
      (single_iteration w queueSize (.failed msg) resp).2 ∧
    WEffect.postTask ∉ (single_iteration w queueSize (.failed msg) resp).2 := by
  have hq' : ¬ queueSize > QUEUE_SIZE_THRESHOLD := by omega
  simp [single_iteration, hq', go_to_state_error]

/-- Witness for C4: queue size 0, a failing read check, and a Manager that
would have offered a task; the iteration ends in ERROR without consuming
the task. -/
theorem pre_task_check_failure_goes_to_error_witness :
    ((single_iteration
        ⟨.awake, none, false, false, none, ActivityCore.default, []⟩
        0 (.failed "path not readable") (.ok200 "T1")).1.state = .error ∧
      WEffect.startErrorSleep ∈ (single_iteration
        ⟨.awake, none, false, false, none, ActivityCore.default, []⟩
        0 (.failed "path not readable") (.ok200 "T1")).2 ∧
      WEffect.ackStatusChange "error" ∈ (single_iteration
        ⟨.awake, none, false, false, none, ActivityCore.default, []⟩
        0 (.failed "path not readable") (.ok200 "T1")).2 ∧
      WEffect.postTask ∉ (single_iteration
        ⟨.awake, none, false, false, none, ActivityCore.default, []⟩
        0 (.failed "path not readable") (.ok200 "T1")).2) :=
  pre_task_check_failure_goes_to_error _ 0 _ _ (by decide)

/-- Claim C10: for a status string outside the four known directives,
`change_status` does not fail: the dictionary lookup falls back to the
asleep handler, so the worker ends in the ASLEEP state (with the asleep
handler's effects, including acknowledging "asleep"). -/
theorem change_status_unknown_goes_asleep (s : String) (w : Worker)
    (h1 : s ≠ "asleep") (h2 : s ≠ "awake") (h3 : s ≠ "shutdown")
    (h4 : s ≠ "error") :
    change_status s w = go_to_state_asleep w ∧
    (change_status s w).1.state = .asleep := by
  have : statusChangeHandler s = none := by
    simp [statusChangeHandler, h1, h2, h3, h4]
  refine ⟨?_, ?_⟩ <;> simp [change_status, this, go_to_state_asleep]

/-- Witness for C10: the unknown directive "reboot" puts the worker to
sleep. -/
theorem change_status_unknown_goes_asleep_witness :
    (change_status "reboot"
        ⟨.awake, none, false, false, none, ActivityCore.default, []⟩ =
      go_to_state_asleep
        ⟨.awake, none, false, false, none, ActivityCore.default, []⟩ ∧
    (change_status "reboot"
        ⟨.awake, none, false, false, none, ActivityCore.default, []⟩).1.state =
      .asleep) :=
  change_status_unknown_goes_asleep "reboot" _
    (by decide) (by decide) (by decide) (by decide)

/-! ## May-I-Run poller (`may_i_run.py`)

`MayIRun.one_iteration` reads the worker's `active_task_id`; when a task is
executing it asks `/may-i-run/{task_id}` and, on a negative answer, stops
the current task; a `status_requested` field in the answer is forwarded to
`worker.change_status` from inside `may_i_run`. -/

/-- `documents.MayKeepRunningResponse`. -/
structure MayKeepRunningResponse where
  may_keep_running : Bool
  reason : Option String
  status_requested : Option String
  deriving Repr, DecidableEq

/-- The worker calls a may-i-run iteration can make. -/
inductive MEffect
  | stopTask (taskId : String)
  | changeStatus (status : String)
  deriving Repr, DecidableEq

/-- `FlamencoWorker.active_task_id`: the task id, but only while a task is
currently executing. -/
def active_task_id (w : Worker) : Option String :=
  if w.executing then w.taskId else none

/-- `MayIRun.may_i_run` (`may_i_run.py` lines 56-76): `resp = none` models a
failed GET (the method logs and returns `None`); otherwise, when the answer
says the task may not keep running and carries a `status_requested`, that
status is forwarded to `worker.change_status`; the boolean answer is
returned either way. -/
def may_i_run (resp : Option MayKeepRunningResponse) :
    Option Bool × List MEffect :=
  match resp with
  | none => (none, [])
  | some r =>
    if r.may_keep_running then
      (some true, [])
    else
      match r.status_requested with
      | some s => (some false, [.changeStatus s])
      | none => (some false, [])

/-- `MayIRun.one_iteration` (`may_i_run.py` lines 37-54): nothing happens
without an active task; an unreachable Manager skips the iteration; a
positive answer is a no-op; a negative answer additionally calls
`worker.stop_current_task(task_id)`. -/
def one_iteration (w : Worker) (resp : Option MayKeepRunningResponse) :
    List MEffect :=
  match active_task_id w with
  | none => []
  | some taskId =>
    let (allowed, effs) := may_i_run resp
    match allowed with
    | none => effs
    | some true => effs
    | some false => effs ++ [.stopTask taskId]

/-- Claim C6: in a may-i-run iteration with active task id `T`, a response
with `may_keep_running = false` makes the poller call
`worker.stop_current_task(T)`, and a `status_requested` in that response is
forwarded as a status-change directive; a response with
`may_keep_running = true` changes nothing. -/
theorem may_i_run_poll_behaviour (w : Worker) (t : String)
    (r : MayKeepRunningResponse) (hactive : active_task_id w = some t) :
    (r.may_keep_running = false →
      MEffect.stopTask t ∈ one_iteration w (some r) ∧
      ∀ s, r.status_requested = some s →
        MEffect.changeStatus s ∈ one_iteration w (some r)) ∧
    (r.may_keep_running = true → one_iteration w (some r) = []) := by
  constructor
  · intro hfalse
    constructor
    · cases hs : r.status_requested <;>
        simp [one_iteration, hactive, may_i_run, hfalse, hs]
    · intro s hs
      simp [one_iteration, hactive, may_i_run, hfalse, hs]
  · intro htrue
    simp [one_iteration, hactive, may_i_run, htrue]

/-- Witness for C6: with task `T1` executing, a negative answer requesting
status "asleep" stops the task and forwards the status change, and a
positive answer leaves the iteration without effects. -/
theorem may_i_run_poll_behaviour_witness :
    (MEffect.stopTask "T1" ∈
        one_iteration
          ⟨.awake, some "T1", true, false, some "active",
            ActivityCore.default, []⟩
          (some ⟨false, some "too busy", some "asleep"⟩) ∧
      MEffect.changeStatus "asleep" ∈
        one_iteration
          ⟨.awake, some "T1", true, false, some "active",
            ActivityCore.default, []⟩
          (some ⟨false, some "too busy", some "asleep"⟩) ∧
      one_iteration
          ⟨.awake, some "T1", true, false, some "active",
            ActivityCore.default, []⟩
          (some ⟨true, none, none⟩) = []) := by
  refine ⟨?_, ?_, ?_⟩
  · exact ((may_i_run_poll_behaviour _ "T1" _ (by decide)).1 rfl).1
  · exact ((may_i_run_poll_behaviour _ "T1" _ (by decide)).1 rfl).2 "asleep" rfl
  · exact (may_i_run_poll_behaviour _ "T1" ⟨true, none, none⟩ (by decide)).2 rfl

/-! ## Registration and sign-on (`worker.py` lines 252-333)

With `may_retry_loop = True`, `_keep_posting_to_manager` retries transport
errors and 5xx responses forever, so each POST it is asked to perform
eventually either succeeds, or raises an HTTP 401 error, or raises an HTTP
403 error (the only statuses it re-raises in retry mode).  `env n` below is
that eventual outcome of the n-th POST the startup sequence performs. -/

/-- Eventual outcome of one `_keep_posting_to_manager` call in retry mode. -/
inductive PostOutcome
  | ok
  | err401
  | err403
  deriving Repr, DecidableEq

/-- Steps the registration/sign-on sequence performs, in order. -/
inductive SignonCall
  | postSignOn
  | genSecret
  | postRegister
  | writeCreds
  deriving Repr, DecidableEq

/-- Result of `signon`: success, or the fatal `UnableToRegisterError`. -/
inductive SignonResult
  | success
  | unableToRegister
  deriving Repr, DecidableEq

/-- `FlamencoWorker.register_at_manager` (`worker.py` lines 288-323): a fresh
secret is generated, then `/register-worker` is POSTed (consuming outcome
`env n`); an HTTP error becomes `UnableToRegisterError`, success stores the
new credentials. -/
def register_at_manager (env : ℕ → PostOutcome) (n : ℕ) :
    SignonResult × List SignonCall :=
  match env n with
  | .ok => (.success, [.genSecret, .postRegister, .writeCreds])
  | .err401 => (.unableToRegister, [.genSecret, .postRegister])
  | .err403 => (.unableToRegister, [.genSecret, .postRegister])

/-- `FlamencoWorker.signon` (`worker.py` lines 252-286): POST `/sign-on`
(consuming outcome `env n`); a non-401 HTTP error is fatal; a 401 when
re-registration was already tried is fatal; otherwise re-register and sign
on once more with `autoregister_already_tried = True`. -/
def signon (env : ℕ → PostOutcome) (n : ℕ) (alreadyTried : Bool) :
    SignonResult × List SignonCall :=
  match env n with
  | .ok => (.success, [.postSignOn])
  | .err403 => (.unableToRegister, [.postSignOn])
  | .err401 =>
    if alreadyTried then
      (.unableToRegister, [.postSignOn])
    else
      match register_at_manager env (n + 1) with
      | (.success, regCalls) =>
        let second := signon env (n + 2) true
        (second.1, .postSignOn :: (regCalls ++ second.2))
      | (.unableToRegister, regCalls) =>
        (.unableToRegister, .postSignOn :: regCalls)
termination_by if alreadyTried then 0 else 1
decreasing_by simp_all

/-- Claim C5: when the first `/sign-on` POST fails with 401, the worker
generates a new secret, POSTs `/register-worker`, and POSTs `/sign-on`
exactly once more; when that second sign-on also fails with 401 the flow
ends in the fatal `UnableToRegisterError` — the trace is exactly
sign-on, generate secret, register, write credentials, sign-on, with no
further retry. -/
theorem signon_second_401_is_fatal (env : ℕ → PostOutcome)
    (h0 : env 0 = .err401) (h1 : env 1 = .ok) (h2 : env 2 = .err401) :
    signon env 0 false =
      (.unableToRegister,
       [.postSignOn, .genSecret, .postRegister, .writeCreds, .postSignOn]) ∧
    ((signon env 0 false).2.count SignonCall.postSignOn = 2) := by
  have : signon env 0 false =
      (.unableToRegister,
       [.postSignOn, .genSecret, .postRegister, .writeCreds, .postSignOn]) := by
    rw [signon, h0]
    rw [show (0 : ℕ) + 1 = 1 by rfl, show (0 : ℕ) + 2 = 2 by rfl]
    rw [register_at_manager, h1]
    rw [signon, h2]
    simp
  refine ⟨this, ?_⟩
  rw [this]
  decide

/-- Witness for C5 at a concrete environment: 401, then a successful
registration, then 401 again. -/
theorem signon_second_401_is_fatal_witness :
    (signon
        (fun n => if n = 0 then .err401 else if n = 1 then .ok else .err401)
        0 false =
      (.unableToRegister,
       [.postSignOn, .genSecret, .postRegister, .writeCreds, .postSignOn]) ∧
    ((signon
        (fun n => if n = 0 then .err401 else if n = 1 then .ok else .err401)
        0 false).2.count SignonCall.postSignOn = 2)) :=
  signon_second_401_is_fatal _ rfl rfl rfl

/-! ## Activity metrics reset (`documents.py`, `worker.py` lines 624-703)

`documents.Activity` is declared with `@attr.s(auto_attribs=True)` and the
field `metrics: dict = \x7b\x7d`.  Under the old-style `attr.s` API a
mutable default is NOT converted into a per-instance factory: the one dict
object created when the class is defined is shared by every `Activity()`
instance, so `_cleanup_state_for_new_task`'s fresh `Activity()` aliases
that dict rather than clearing it.  The model below therefore keeps the
shared dict as an explicit state component that `cleanupActivity` does not
touch.  What keeps the reset claim true is the other half of the code: the
only statement that could populate the dict,
`self.last_task_activity.metrics['timing'] = timing_metrics.to_json_compat()`
(`worker.py` line 701), first evaluates its right-hand side, and
`TaskRunner.aggr_timing_info` is a plain `collections.OrderedDict`
(`runner.py` lines 27, 116-118) with no `to_json_compat` method — so
whenever the aggregate is non-empty the line raises `AttributeError`
before any store, and when it is empty line 703 only pops.  No caller of
`register_task_update` passes a `metrics` keyword, so the setattr loop
(lines 695-696) touches only the scalar Activity fields.  The shared dict
hence stays empty over every execution history, which is proved below as
an invariant. -/

/-- Worker state relevant to the Activity-metrics reset: the scalar Activity
fields plus the content of the class-level shared `metrics` dict.  Because
every `Activity()` aliases that same dict, the current activity's metrics
content always equals `sharedMetricsDict`. -/
structure ActivityState where
  activityCore : ActivityCore
  sharedMetricsDict : List (String × List (String × ℚ))
  deriving Repr, DecidableEq

/-- The timing-metrics step of `register_task_update` (`worker.py` lines
699-703), with `aggr` the runner's `aggr_timing_info`.  When `aggr` is
empty (falsy), line 703 pops the `timing` key from the shared dict.  When
it is non-empty, line 701 evaluates `timing_metrics.to_json_compat()` on a
plain `OrderedDict`, which raises `AttributeError` before the store into
`metrics` happens: the method aborts with the shared dict unchanged. -/
def updateTimingMetric (s : ActivityState) (aggr : List (String × ℚ)) :
    Except String ActivityState :=
  if aggr = [] then
    .ok { s with sharedMetricsDict :=
            s.sharedMetricsDict.filter (fun p => p.1 != "timing") }
  else
    .error "AttributeError: OrderedDict has no attribute to_json_compat"

/-- `self.last_task_activity = documents.Activity()` in
`_cleanup_state_for_new_task` (`worker.py` line 627): the scalar fields are
fresh defaults, but the new instance's `metrics` is the same shared dict,
whose content is therefore untouched. -/
def cleanupActivity (s : ActivityState) : ActivityState :=
  { s with activityCore := ActivityCore.default }

/-- The metrics mapping visible through `last_task_activity.metrics`. -/
def activityMetrics (s : ActivityState) : List (String × List (String × ℚ)) :=
  s.sharedMetricsDict

/-- Everything a task execution can do to the Activity record, as the source
allows it: update the scalar fields through the setattr loop of
`register_task_update` (its callers never pass a `metrics` keyword), run
the timing-metrics step of `register_task_update`, or begin a new task
(`_cleanup_state_for_new_task`). -/
inductive ActOp
  | setFields (core : ActivityCore)
  | taskUpdate (aggr : List (String × ℚ))
  | newTask
  deriving Repr, DecidableEq

/-- One Activity-record operation.  A `taskUpdate` whose metrics step raises
`AttributeError` leaves the state as it was: the exception propagates out of
`register_task_update` (it is caught further up, in `execute_task`) and the
store never happened. -/
def runActOp (s : ActivityState) : ActOp → ActivityState
  | .setFields core => { s with activityCore := core }
  | .taskUpdate aggr =>
    match updateTimingMetric s aggr with
    | .ok s' => s'
    | .error _ => s
  | .newTask => cleanupActivity s

/-- An execution history of Activity-record operations. -/
def runActOps (s : ActivityState) (ops : List ActOp) : ActivityState :=
  ops.foldl runActOp s

/-- The shared class-level metrics dict starts empty (it is created empty
when `documents.Activity` is defined) and no operation can populate it:
the only store raises `AttributeError` first and the pop only removes. -/
theorem sharedMetricsDict_stays_empty (ops : List ActOp) (s : ActivityState)
    (h : s.sharedMetricsDict = []) :
    (runActOps s ops).sharedMetricsDict = [] := by
  induction ops generalizing s with
  | nil => simpa [runActOps] using h
  | cons op rest ih =>
    have hstep : (runActOp s op).sharedMetricsDict = [] := by
      cases op with
      | setFields core => simpa [runActOp] using h
      | taskUpdate aggr =>
        by_cases ha : aggr = []
        · simp [runActOp, updateTimingMetric, ha, h]
        · simp [runActOp, updateTimingMetric, ha, h]
      | newTask => simpa [runActOp, cleanupActivity] using h
    simpa [runActOps, List.foldl_cons] using ih _ hstep

/-- Claim C9: when a new task begins, `_cleanup_state_for_new_task` leaves
the default Activity, whatever the previous task did: the scalar fields
(activity text, command index, progress percentages) are those of a fresh
`Activity()`, and the metrics mapping is empty — the previous task cannot
have stored anything in it, because the only store into the shared metrics
dict (`worker.py` line 701) raises `AttributeError` on its right-hand side
before mutating it. -/
theorem cleanup_resets_activity (ops : List ActOp) :
    (runActOps ⟨ActivityCore.default, []⟩ (ops ++ [.newTask])).activityCore =
      ActivityCore.default ∧
    activityMetrics (runActOps ⟨ActivityCore.default, []⟩ (ops ++ [.newTask]))
      = [] := by
  have hfold : runActOps ⟨ActivityCore.default, []⟩ (ops ++ [.newTask]) =
      runActOp (runActOps ⟨ActivityCore.default, []⟩ ops) .newTask := by
    simp [runActOps, List.foldl_append]
  have hempty : (runActOps ⟨ActivityCore.default, []⟩ ops).sharedMetricsDict
      = [] := sharedMetricsDict_stays_empty ops _ rfl
  refine ⟨?_, ?_⟩
  · rw [hfold]; rfl
  · rw [hfold]
    simpa [activityMetrics, runActOp, cleanupActivity] using hempty

end Flamenco
